import Mathlib

/-
Verification of src/download_lyrics.py, a batch pipeline that scans a
directory for MP3 files, extracts (artist, title) metadata, queries the
lrclib.net search API, and writes LRC lyric files next to the tracks.

Shallow embedding conventions:
 - Python strings that may be None are Option String; Python truthiness of
   such a value (None or the empty string are falsy) is the predicate falsy.
 - The outcome of reading tags with mutagen is MP3Parse: err models the
   exception path of get_mp3_metadata, ok carries the optional ID3 tag data
   (none models both a missing and an empty tag container, which are falsy).
 - The HTTP layer of search_lrclib is abstracted by HTTPOutcome: a network
   error raised by the request (caught by the except clause), or a response
   with a status code and a body that either fails JSON parsing or parses
   to a list of result records.
 - File system effects are abstracted per track by TrackEnv (the lyric file
   content before the run, the tag parse outcome, the HTTP outcome, the
   write outcome) and ProcOutcome records which pipeline stages ran and the
   lyric file content afterwards.
 - process_mp3_file calls get_lyrics_link and get_lrc_content, whose
   definitions are not under src/; they are modelled from the spec, see
   their doc comments.
-/

namespace DownloadLyrics

/-- Python truthiness of an optional string: None and the empty string are
falsy, every other string is truthy. -/
def falsy : Option String → Bool
  | none => true
  | some s => s = ""

/-- Python str.strip(): remove whitespace from both ends (on character
lists, so that it evaluates by structural recursion). -/
def strip (s : String) : String :=
  String.mk (((s.data.dropWhile Char.isWhitespace).reverse.dropWhile
    Char.isWhitespace).reverse)

/-- Scan a character list for the first occurrence of the separator,
returning the part before it and the part after it. -/
def splitFirstChars (sep : List Char) : List Char → Option (List Char × List Char)
  | [] => none
  | c :: rest =>
    if sep.isPrefixOf (c :: rest) then some ([], (c :: rest).drop sep.length)
    else
      match splitFirstChars sep rest with
      | none => none
      | some pq => some (c :: pq.1, pq.2)

/-- Python str.split(sep, 1): if sep occurs in s, the part before the first
occurrence and everything after it; otherwise none (models the membership
test sep in s together with the single split). -/
def splitFirst (s sep : String) : Option (String × String) :=
  match splitFirstChars sep.data s.data with
  | none => none
  | some pq => some (String.mk pq.1, String.mk pq.2)

/-- The ID3 tag fields get_mp3_metadata reads: TPE1 (artist), TPE2 (album
artist), TIT2 (title). A field is some v when present (v may be empty). -/
structure TagData where
  tpe1 : Option String
  tpe2 : Option String
  tit2 : Option String
deriving DecidableEq, Repr

/-- Outcome of MP3(file_path, ID3=ID3): err models the exception path of the
try block in get_mp3_metadata; ok tags carries the tag container, with none
for a missing or empty (falsy) container. -/
inductive MP3Parse where
  | err : MP3Parse
  | ok : Option TagData → MP3Parse
deriving DecidableEq, Repr

/-- get_mp3_metadata (src lines 59-95): reads TPE1 (else TPE2) as artist and
TIT2 as title; if either is falsy, falls back to the filename stem, splitting
on the first occurrence of the separator and stripping, else taking the whole
stem as title with the sentinel artist Unknown; returns (None, None) on a
parse exception. Returns the pair (artist, title). -/
def get_mp3_metadata : MP3Parse → String → Option String × Option String
  | MP3Parse.err, _ => (none, none)
  | MP3Parse.ok tagsOpt, stem =>
    let artist0 : Option String :=
      match tagsOpt with
      | none => none
      | some tags =>
        match tags.tpe1 with
        | some a => some a
        | none => tags.tpe2
    let title0 : Option String :=
      match tagsOpt with
      | none => none
      | some tags => tags.tit2
    if falsy artist0 || falsy title0 then
      match splitFirst stem " - " with
      | some (p, q) =>
        ((if falsy artist0 then some (strip p) else artist0),
         (if falsy title0 then some (strip q) else title0))
      | none => (some "Unknown", some stem)
    else
      (artist0, title0)

/-- A record of the JSON array returned by the lrclib search endpoint; each
field is some v when present with a string value v (absent or null fields are
none). -/
structure SearchResult where
  artistName : Option String
  trackName : Option String
  syncedLyrics : Option String
  plainLyrics : Option String
deriving DecidableEq, Repr

/-- Body of the HTTP search response: malformed covers a body on which
response.json() raises (including a body that is not an array, whose
indexing then raises and is caught); parsed carries the decoded array. -/
inductive JSONBody where
  | malformed : JSONBody
  | parsed : List SearchResult → JSONBody
deriving DecidableEq, Repr

/-- Outcome of session.get in search_lrclib: a network exception, or a
response with a status code and body. -/
inductive HTTPOutcome where
  | netError : HTTPOutcome
  | resp : Nat → JSONBody → HTTPOutcome
deriving DecidableEq, Repr

/-- search_lrclib (src lines 98-144): queries the search endpoint with the
artist and title; any non-200 status, JSON parse failure, empty result array
or network exception yields None (the except clause swallows exceptions);
otherwise the first element of the array is returned unchanged. The function
is total: no exception propagates to the caller. -/
def search_lrclib (artist title : String) (o : HTTPOutcome) : Option SearchResult :=
  match artist, title, o with
  | _, _, HTTPOutcome.netError => none
  | _, _, HTTPOutcome.resp status body =>
    if status ≠ 200 then none
    else
      match body with
      | JSONBody.malformed => none
      | JSONBody.parsed [] => none
      | JSONBody.parsed (r :: _) => some r

/-- get_lrc_from_result (src lines 147-177): prefers the syncedLyrics field
when truthy, falls back to plainLyrics when truthy, else None; None input
gives None. -/
def get_lrc_from_result : Option SearchResult → Option String
  | none => none
  | some r =>
    if falsy r.syncedLyrics = false then r.syncedLyrics
    else if falsy r.plainLyrics = false then r.plainLyrics
    else none

/-- Modelled from the spec: process_mp3_file (src line 224) calls
get_lyrics_link, which has no definition under src/. Spec section 4.2 defines
the resolver search operation — query the remote endpoint with artist and
title, select the first candidate deterministically, return None on any
failure — which src implements as search_lrclib; the model equates the two. -/
def get_lyrics_link (artist title : String) (o : HTTPOutcome) : Option SearchResult :=
  search_lrclib artist title o

/-- Modelled from the spec: process_mp3_file (src line 233) calls
get_lrc_content, which has no definition under src/. Spec section 4.2 defines
extractPayload — prefer the synced lyric field, fall back to the plain field,
None when neither is present — which src implements as get_lrc_from_result;
the model equates the two. -/
def get_lrc_content (link : Option SearchResult) : Option String :=
  get_lrc_from_result link

/-- Outcome of the attempt to open and write the lyric file in save_lrc_file:
success, or an I/O failure that leaves the sibling file holding the given
content (none when the file was not created at all, some p when a possibly
partial or empty file remains on disk). -/
inductive WriteOutcome where
  | success : WriteOutcome
  | failure : Option String → WriteOutcome
deriving DecidableEq, Repr

/-- save_lrc_file (src lines 180-189): writes the content to the sibling lrc
path, returning True on success and False on any exception (logged, not
propagated). The second component is the lyric file content afterwards. -/
def save_lrc_file (content : String) : WriteOutcome → Bool × Option String
  | WriteOutcome.success => (true, some content)
  | WriteOutcome.failure leftover => (false, leftover)

/-- Per-track environment: the filename stem, the lyric sibling file content
before processing (none when the file does not exist), the tag parse outcome,
the HTTP outcome of the search, and the write outcome. -/
structure TrackEnv where
  stem : String
  lrcContent : Option String
  parse : MP3Parse
  http : HTTPOutcome
  write : WriteOutcome
deriving DecidableEq, Repr

/-- Observable outcome of process_mp3_file on one track: its boolean return
value, whether the metadata read, the network lookup and the write attempt
were performed, and the lyric sibling file content afterwards. -/
structure ProcOutcome where
  returned : Bool
  readMetadata : Bool
  networkLookup : Bool
  writeAttempted : Bool
  lrcAfter : Option String
deriving DecidableEq, Repr

/-- process_mp3_file (src lines 202-245): skip when the lrc sibling exists
and skip mode is on; read metadata and stop when artist or title is falsy;
search for a lyrics link and stop when none; extract the lyric content and
stop when none; write the file and return the write result. -/
def process_mp3_file (env : TrackEnv) (skip_existing : Bool) : ProcOutcome :=
  if skip_existing && env.lrcContent.isSome then
    ProcOutcome.mk false false false false env.lrcContent
  else
    let md := get_mp3_metadata env.parse env.stem
    if falsy md.1 || falsy md.2 then
      ProcOutcome.mk false true false false env.lrcContent
    else
      match get_lyrics_link (md.1.getD "") (md.2.getD "") env.http with
      | none => ProcOutcome.mk false true true false env.lrcContent
      | some link =>
        match get_lrc_content (some link) with
        | none => ProcOutcome.mk false true true false env.lrcContent
        | some content =>
          let w := save_lrc_file content env.write
          ProcOutcome.mk w.1 true true true w.2

/-- The per-file loop of main (src lines 280-288): for each track, when
process_mp3_file returned True count a success; otherwise when the lrc
sibling exists after processing and skip mode is on count a skip; otherwise
count a failure. Returns (success_count, skip_count, fail_count). The three
counters commute, so the tallies are computed by structural recursion. -/
def mainLoop : List TrackEnv → Bool → Nat × Nat × Nat
  | [], _ => (0, 0, 0)
  | e :: rest, skip =>
    let prev := mainLoop rest skip
    let out := process_mp3_file e skip
    if out.returned then (prev.1 + 1, prev.2.1, prev.2.2)
    else if out.lrcAfter.isSome && skip then (prev.1, prev.2.1 + 1, prev.2.2)
    else (prev.1, prev.2.1, prev.2.2 + 1)

/-- Result of a run of main (src lines 248-295): the process exit code, and
the final summary tallies when the per-file loop ran (none when the run
ended before processing any track: usage error, invalid directory, or no
files found). -/
structure MainResult where
  exitCode : Nat
  tallies : Option (Nat × Nat × Nat)
deriving DecidableEq, Repr

/-- main (src lines 248-295): exit 1 when no positional argument is given;
skip mode is on unless --force appears among the arguments; exit 1 when the
path is not a directory; exit 0 with no processing when no MP3 files are
found; otherwise run the loop over the discovered files and exit 0. -/
def main (argv : List String) (isDir : Bool) (envs : List TrackEnv) : MainResult :=
  if argv.length < 2 then MainResult.mk 1 none
  else
    let skip := !(argv.contains "--force")
    if !isDir then MainResult.mk 1 none
    else if envs.isEmpty then MainResult.mk 0 none
    else MainResult.mk 0 (some (mainLoop envs skip))

/-- C2: for every search result record, when syncedLyrics is a non-empty
string the extracted payload is exactly that string regardless of
plainLyrics; when syncedLyrics is absent or empty and plainLyrics is a
non-empty string the payload is exactly plainLyrics; when neither is present
and non-empty no payload is returned. -/
theorem get_lrc_from_result_payload :
    (∀ (r : SearchResult) (s : String), r.syncedLyrics = some s → s ≠ "" →
      get_lrc_from_result (some r) = some s) ∧
    (∀ (r : SearchResult) (p : String),
      (r.syncedLyrics = none ∨ r.syncedLyrics = some "") →
      r.plainLyrics = some p → p ≠ "" →
      get_lrc_from_result (some r) = some p) ∧
    (∀ r : SearchResult,
      (r.syncedLyrics = none ∨ r.syncedLyrics = some "") →
      (r.plainLyrics = none ∨ r.plainLyrics = some "") →
      get_lrc_from_result (some r) = none) := by
  refine ⟨?_, ?_, ?_⟩
  · intro r s hs hne
    simp [get_lrc_from_result, hs, falsy, hne]
  · intro r p hsync hp hne
    rcases hsync with h | h <;>
      simp [get_lrc_from_result, h, hp, falsy, hne]
  · intro r hsync hplain
    rcases hsync with h | h <;> rcases hplain with h2 | h2 <;>
      simp [get_lrc_from_result, h, h2, falsy]

theorem get_lrc_from_result_payload_witness :
    get_lrc_from_result (some (SearchResult.mk (some "A") (some "T")
        (some "[00:01.00]Hello") (some "plain text"))) = some "[00:01.00]Hello" :=
  get_lrc_from_result_payload.1
    (SearchResult.mk (some "A") (some "T") (some "[00:01.00]Hello") (some "plain text"))
    "[00:01.00]Hello" rfl (by decide)

/-- C4: for every file without usable embedded tags, a filename stem
containing the separator is split at its first occurrence into artist and
title with surrounding whitespace trimmed, and a stem without the separator
yields the whole stem as title with artist Unknown. -/
theorem get_mp3_metadata_filename_fallback (stem : String) :
    get_mp3_metadata (MP3Parse.ok none) stem =
      match splitFirst stem " - " with
      | some pq => (some (strip pq.1), some (strip pq.2))
      | none => (some "Unknown", some stem) := by
  cases h : splitFirst stem " - " with
  | none => simp [get_mp3_metadata, falsy, h]
  | some pq =>
    cases pq with
    | mk p q => simp [get_mp3_metadata, falsy, h]

/-- C5: search_lrclib returns None on a network error, on any non-200
status, on a malformed response body, and on an empty result array; being a
total function of the modelled outcome, it propagates no exception. -/
theorem search_lrclib_failure_none :
    (∀ a t : String, search_lrclib a t HTTPOutcome.netError = none) ∧
    (∀ (a t : String) (s : Nat) (b : JSONBody), s ≠ 200 →
      search_lrclib a t (HTTPOutcome.resp s b) = none) ∧
    (∀ (a t : String) (s : Nat),
      search_lrclib a t (HTTPOutcome.resp s JSONBody.malformed) = none) ∧
    (∀ a t : String,
      search_lrclib a t (HTTPOutcome.resp 200 (JSONBody.parsed [])) = none) := by
  refine ⟨fun a t => rfl, ?_, ?_, fun a t => rfl⟩
  · intro a t s b hs
    simp [search_lrclib, hs]
  · intro a t s
    by_cases hs : s = 200 <;> simp [search_lrclib, hs]

theorem search_lrclib_failure_none_witness :
    search_lrclib "Artist" "Title"
      (HTTPOutcome.resp 404 (JSONBody.parsed
        [SearchResult.mk (some "A") (some "T") (some "x") none])) = none :=
  search_lrclib_failure_none.2.1 "Artist" "Title" 404
    (JSONBody.parsed [SearchResult.mk (some "A") (some "T") (some "x") none])
    (by decide)

/-- C6: on a 200 response whose body parses to a non-empty array,
search_lrclib returns exactly the first element of the array, independent of
the remaining candidates — no scoring or reordering. -/
theorem search_lrclib_first_result (a t : String) (r : SearchResult)
    (rs : List SearchResult) :
    search_lrclib a t (HTTPOutcome.resp 200 (JSONBody.parsed (r :: rs))) = some r := by
  simp [search_lrclib]

/-- C3 counterexample: for the tagless file with stem " - Song" the filename
fallback yields the non-empty title Song, yet the extracted artist is the
empty string (not the sentinel Unknown) and the pipeline treats the track as
a metadata failure: metadata is read but the network lookup never happens. -/
theorem get_mp3_metadata_empty_artist_cex :
    get_mp3_metadata (MP3Parse.ok none) " - Song" = (some "", some "Song") ∧
    (process_mp3_file (TrackEnv.mk " - Song" none (MP3Parse.ok none)
        HTTPOutcome.netError WriteOutcome.success) false).readMetadata = true ∧
    (process_mp3_file (TrackEnv.mk " - Song" none (MP3Parse.ok none)
        HTTPOutcome.netError WriteOutcome.success) false).networkLookup = false := by
  refine ⟨?_, ?_, ?_⟩ <;> rfl

/-- C3 amended: processing stops with the metadata failure signal exactly
when the artist or the title is still falsy after the fallback, and on a
readable file the artist resolves to at least the sentinel Unknown whenever
the filename stem contains no separator; with a separator the artist is the
trimmed left part, which can be empty, so a non-empty title alone does not
guarantee success. -/
theorem get_mp3_metadata_failure_amended :
    (∀ env : TrackEnv,
      ((process_mp3_file env false).networkLookup = false ↔
        (falsy (get_mp3_metadata env.parse env.stem).1 = true ∨
         falsy (get_mp3_metadata env.parse env.stem).2 = true))) ∧
    (∀ (tags : Option TagData) (stem : String), splitFirst stem " - " = none →
      (get_mp3_metadata (MP3Parse.ok tags) stem).1 = some "Unknown" ∨
      falsy (get_mp3_metadata (MP3Parse.ok tags) stem).1 = false) := by
  constructor
  · intro env
    cases h1 : (falsy (get_mp3_metadata env.parse env.stem).1 ||
        falsy (get_mp3_metadata env.parse env.stem).2) with
    | true =>
      simp only [process_mp3_file, Bool.false_and, Bool.false_eq_true, if_false, h1,
        if_true]
      simpa using Bool.or_eq_true_iff.mp h1
    | false =>
      have h1a := Bool.or_eq_false_iff.mp h1
      cases h2 : get_lyrics_link ((get_mp3_metadata env.parse env.stem).1.getD "")
          ((get_mp3_metadata env.parse env.stem).2.getD "") env.http with
      | none =>
        simp [process_mp3_file, h1, h2, h1a.1, h1a.2]
      | some link =>
        cases h3 : get_lrc_content (some link) with
        | none => simp [process_mp3_file, h1, h2, h3, h1a.1, h1a.2]
        | some content => simp [process_mp3_file, h1, h2, h3, h1a.1, h1a.2]
  · intro tags stem hsep
    cases tags with
    | none =>
      left
      simp [get_mp3_metadata, falsy, hsep]
    | some td =>
      cases h : (falsy (match td.tpe1 with | some a => some a | none => td.tpe2) ||
          falsy td.tit2) with
      | true =>
        left
        simp only [get_mp3_metadata, h, if_true, hsep]
      | false =>
        right
        have h1a := Bool.or_eq_false_iff.mp h
        simp only [get_mp3_metadata, h, Bool.false_eq_true, if_false]
        exact h1a.1

theorem get_mp3_metadata_failure_amended_witness :
    ((process_mp3_file (TrackEnv.mk "Song" none (MP3Parse.ok none)
        HTTPOutcome.netError WriteOutcome.success) false).networkLookup = false ↔
      (falsy (get_mp3_metadata (MP3Parse.ok none) "Song").1 = true ∨
       falsy (get_mp3_metadata (MP3Parse.ok none) "Song").2 = true)) ∧
    ((get_mp3_metadata (MP3Parse.ok none) "Song").1 = some "Unknown" ∨
      falsy (get_mp3_metadata (MP3Parse.ok none) "Song").1 = false) :=
  ⟨get_mp3_metadata_failure_amended.1
      (TrackEnv.mk "Song" none (MP3Parse.ok none) HTTPOutcome.netError WriteOutcome.success),
   get_mp3_metadata_failure_amended.2 none "Song" rfl⟩

/-- Helper: the per-file loop on a cons is the loop on the tail with exactly
one tally added according to the outcome of the head track. -/
theorem mainLoop_cons_eq (e : TrackEnv) (envs : List TrackEnv) (skip : Bool) :
    mainLoop (e :: envs) skip =
      (if (process_mp3_file e skip).returned then
        ((mainLoop envs skip).1 + 1, (mainLoop envs skip).2.1, (mainLoop envs skip).2.2)
      else if (process_mp3_file e skip).lrcAfter.isSome && skip then
        ((mainLoop envs skip).1, (mainLoop envs skip).2.1 + 1, (mainLoop envs skip).2.2)
      else
        ((mainLoop envs skip).1, (mainLoop envs skip).2.1, (mainLoop envs skip).2.2 + 1)) :=
  rfl

/-- C1: whatever the head track does — metadata failure, no search result,
no lyrics in the result, write failure, skip or success — the loop tallies it
as exactly one of success, skipped or failed, and the tallies of the
remaining files are computed unchanged: a single track never aborts the
batch, which always ends with the three summary counts. -/
theorem mainLoop_isolates_failures (e : TrackEnv) (envs : List TrackEnv) (skip : Bool) :
    mainLoop (e :: envs) skip =
      ((mainLoop envs skip).1 + 1, (mainLoop envs skip).2.1, (mainLoop envs skip).2.2) ∨
    mainLoop (e :: envs) skip =
      ((mainLoop envs skip).1, (mainLoop envs skip).2.1 + 1, (mainLoop envs skip).2.2) ∨
    mainLoop (e :: envs) skip =
      ((mainLoop envs skip).1, (mainLoop envs skip).2.1, (mainLoop envs skip).2.2 + 1) := by
  rw [mainLoop_cons_eq]
  cases h1 : (process_mp3_file e skip).returned with
  | true => exact Or.inl (by simp)
  | false =>
    cases h2 : ((process_mp3_file e skip).lrcAfter.isSome && skip) with
    | true => exact Or.inr (Or.inl (by simp [h2]))
    | false => exact Or.inr (Or.inr (by simp [h2]))

/-- C10: every iteration of the per-file loop increments exactly one of the
three counters, so the success, skipped and failed counts sum to the number
of discovered files. -/
theorem mainLoop_sum_counts (envs : List TrackEnv) (skip : Bool) :
    (mainLoop envs skip).1 + (mainLoop envs skip).2.1 + (mainLoop envs skip).2.2 =
      envs.length := by
  induction envs with
  | nil => rfl
  | cons e rest ih =>
    rw [mainLoop_cons_eq]
    cases h1 : (process_mp3_file e skip).returned with
    | true => simpa using by omega
    | false =>
      cases h2 : ((process_mp3_file e skip).lrcAfter.isSome && skip) with
      | true => simp only [Bool.false_eq_true, if_false, h2, if_true, List.length_cons]; omega
      | false => simp only [Bool.false_eq_true, if_false, h2, List.length_cons]; omega

/-- C8: a track whose lyric sibling already exists is, in skip mode, left
with its lyric content unchanged, triggers no metadata read, no network
lookup and no write attempt, and is tallied as skipped — not success, not
failed. -/
theorem skip_mode_frame (env : TrackEnv) (envs : List TrackEnv) (c : String)
    (h : env.lrcContent = some c) :
    process_mp3_file env true = ProcOutcome.mk false false false false (some c) ∧
    mainLoop (env :: envs) true =
      ((mainLoop envs true).1, (mainLoop envs true).2.1 + 1, (mainLoop envs true).2.2) := by
  have hp : process_mp3_file env true = ProcOutcome.mk false false false false (some c) := by
    simp [process_mp3_file, h]
  refine ⟨hp, ?_⟩
  rw [mainLoop_cons_eq, hp]
  simp

/-- A track whose lyric sibling holds old lyrics before the run. -/
def envSkipDemo : TrackEnv :=
  TrackEnv.mk "track" (some "old lyrics") MP3Parse.err HTTPOutcome.netError
    WriteOutcome.success

theorem skip_mode_frame_witness :
    process_mp3_file envSkipDemo true =
      ProcOutcome.mk false false false false (some "old lyrics") ∧
    mainLoop [envSkipDemo] true =
      ((mainLoop ([] : List TrackEnv) true).1,
       (mainLoop ([] : List TrackEnv) true).2.1 + 1,
       (mainLoop ([] : List TrackEnv) true).2.2) :=
  skip_mode_frame envSkipDemo [] "old lyrics" rfl

/-- Helper: when process_mp3_file attempted the write, the run reached the
final stage, so its outcome is exactly the outcome of save_lrc_file on some
lyric content. -/
theorem process_writeAttempted_eq (env : TrackEnv) (skip : Bool)
    (ha : (process_mp3_file env skip).writeAttempted = true) :
    ∃ content : String,
      process_mp3_file env skip =
        ProcOutcome.mk (save_lrc_file content env.write).1 true true true
          (save_lrc_file content env.write).2 := by
  cases hb : (skip && env.lrcContent.isSome) with
  | true => simp [process_mp3_file, hb] at ha
  | false =>
    cases h1 : (falsy (get_mp3_metadata env.parse env.stem).1 ||
        falsy (get_mp3_metadata env.parse env.stem).2) with
    | true => simp [process_mp3_file, hb, h1] at ha
    | false =>
      cases h2 : get_lyrics_link ((get_mp3_metadata env.parse env.stem).1.getD "")
          ((get_mp3_metadata env.parse env.stem).2.getD "") env.http with
      | none => simp [process_mp3_file, hb, h1, h2] at ha
      | some link =>
        cases h3 : get_lrc_content (some link) with
        | none => simp [process_mp3_file, hb, h1, h2, h3] at ha
        | some content =>
          exact ⟨content, by simp [process_mp3_file, hb, h1, h2, h3]⟩

/-- A track with good tags and a found synced lyric whose write fails,
leaving an empty lyric file on disk. -/
def envWriteFailDemo : TrackEnv :=
  TrackEnv.mk "track" none
    (MP3Parse.ok (some (TagData.mk (some "Art") none (some "Tit"))))
    (HTTPOutcome.resp 200 (JSONBody.parsed
      [SearchResult.mk (some "Art") (some "Tit") (some "[00:01.00]Hello") none]))
    (WriteOutcome.failure (some ""))

/-- C7 counterexample: on a track whose write attempt fails but leaves a
(partial, here empty) lyric file on disk, a skip-mode run tallies the track
as skipped — tallies (0, 1, 0) — not as failed, because main rechecks the
sibling file existence only after processing. -/
theorem save_failure_counted_skipped_cex :
    (process_mp3_file envWriteFailDemo true).writeAttempted = true ∧
    (process_mp3_file envWriteFailDemo true).returned = false ∧
    mainLoop [envWriteFailDemo] true = (0, 1, 0) := by
  refine ⟨?_, ?_, ?_⟩ <;> rfl

/-- C7 amended: a track whose write attempt fails is never tallied as a
success; it is tallied as failed unless skip mode is active and the failed
write left a lyric file on disk, in which case the post-processing existence
check classifies it as skipped. -/
theorem save_failure_tally (env : TrackEnv) (envs : List TrackEnv) (skip : Bool)
    (l : Option String)
    (hw : env.write = WriteOutcome.failure l)
    (ha : (process_mp3_file env skip).writeAttempted = true) :
    (process_mp3_file env skip).returned = false ∧
    (process_mp3_file env skip).lrcAfter = l ∧
    mainLoop (env :: envs) skip =
      (if l.isSome && skip then
        ((mainLoop envs skip).1, (mainLoop envs skip).2.1 + 1, (mainLoop envs skip).2.2)
      else
        ((mainLoop envs skip).1, (mainLoop envs skip).2.1, (mainLoop envs skip).2.2 + 1)) := by
  obtain ⟨content, hp⟩ := process_writeAttempted_eq env skip ha
  rw [hw] at hp
  have hps : process_mp3_file env skip = ProcOutcome.mk false true true true l := hp
  refine ⟨by rw [hps], by rw [hps], ?_⟩
  rw [mainLoop_cons_eq, hps]
  cases hl : (l.isSome && skip) with
  | true => simp [hl]
  | false => simp [hl]

/-- A track with good tags and a found synced lyric whose write fails
without creating the lyric file. -/
def envWriteFailDemo2 : TrackEnv :=
  TrackEnv.mk "track" none
    (MP3Parse.ok (some (TagData.mk (some "Art") none (some "Tit"))))
    (HTTPOutcome.resp 200 (JSONBody.parsed
      [SearchResult.mk (some "Art") (some "Tit") (some "[00:01.00]Hello") none]))
    (WriteOutcome.failure none)

theorem save_failure_tally_witness :
    (process_mp3_file envWriteFailDemo2 true).returned = false ∧
    (process_mp3_file envWriteFailDemo2 true).lrcAfter = none ∧
    mainLoop [envWriteFailDemo2] true =
      (if (Option.none : Option String).isSome && true then
        ((mainLoop ([] : List TrackEnv) true).1,
         (mainLoop ([] : List TrackEnv) true).2.1 + 1,
         (mainLoop ([] : List TrackEnv) true).2.2)
      else
        ((mainLoop ([] : List TrackEnv) true).1,
         (mainLoop ([] : List TrackEnv) true).2.1,
         (mainLoop ([] : List TrackEnv) true).2.2 + 1)) :=
  save_failure_tally envWriteFailDemo2 [] true none rfl rfl

/-- C9: main exits with code 1 before processing any track (no tallies) when
the positional argument is missing or when the path is not a directory, and
exits with code 0 whenever an argument is given and the path is a directory,
including the case where no audio files are found. -/
theorem main_exit_codes :
    (∀ (argv : List String) (isDir : Bool) (envs : List TrackEnv),
      argv.length < 2 → main argv isDir envs = MainResult.mk 1 none) ∧
    (∀ (argv : List String) (envs : List TrackEnv),
      2 ≤ argv.length → main argv false envs = MainResult.mk 1 none) ∧
    (∀ (argv : List String) (envs : List TrackEnv),
      2 ≤ argv.length → (main argv true envs).exitCode = 0) := by
  refine ⟨?_, ?_, ?_⟩
  · intro argv isDir envs h
    simp [main, h]
  · intro argv envs h
    simp [main, Nat.not_lt.mpr h]
  · intro argv envs h
    cases he : envs.isEmpty <;> simp [main, Nat.not_lt.mpr h, he]

theorem main_exit_codes_witness :
    main ["prog"] true [] = MainResult.mk 1 none ∧
    main ["prog", "dir"] false [] = MainResult.mk 1 none ∧
    (main ["prog", "dir"] true []).exitCode = 0 :=
  ⟨main_exit_codes.1 ["prog"] true [] (by decide),
   main_exit_codes.2.1 ["prog", "dir"] [] (by decide),
   main_exit_codes.2.2 ["prog", "dir"] [] (by decide)⟩

end DownloadLyrics
